import Mathlib

/-!
Shallow embedding of `src/utils.py` from the `boost_validation` repository.

Conventions of the embedding:
* pandas numeric cells are modelled by `ℚ` (the code only adds, subtracts,
  divides and rounds decimal values); string cells by `String`; the `year`
  column by `ℤ`.
* `np.round(x, d)` rounds half to even (banker's rounding); it is modelled
  exactly by `roundTo` below.  No claim depends on the tie-breaking rule.
* A pandas `DataFrame` of arbitrary shape is modelled by `DFrame` (a column
  name list plus rows of cells); the domain-specific merged budget table,
  whose canonical schema the spec fixes as
  `year, extra, organization_name, parent_name, budget_type_name, value`,
  is modelled by `List BRow`.
* Division by zero in `ℚ` yields `0` (Lean convention); in the source it
  yields NaN/inf.  Both differ from every ordinary rational, and the only
  claim touching the case is refuted under either reading.
-/

/-- A cell value of a table: a string, an integer (the `year` column), or a
numeric (float) value modelled by `ℚ`. -/
inductive Val where
  | str : String → Val
  | int : ℤ → Val
  | num : ℚ → Val
deriving DecidableEq, Repr

/-- `np.round` to an integer: round half to even (banker's rounding). -/
def roundHalfEven (x : ℚ) : ℤ :=
  if x - ⌊x⌋ = 1 / 2 then
    (if ⌊x⌋ % 2 = 0 then ⌊x⌋ else ⌊x⌋ + 1)
  else
    round x

/-- `np.round(x, d)`: round to `d` decimal digits, half to even. -/
def roundTo (d : ℕ) (x : ℚ) : ℚ :=
  (roundHalfEven (x * 10 ^ d) : ℚ) / 10 ^ d

/-- A row of the merged budget table (`MergedBudgetTable` in the spec):
the canonical schema consumed by the validators and by `budget_gap`. -/
structure BRow where
  year : ℤ
  extra : String
  organization_name : String
  parent_name : String
  budget_type_name : String
  value : ℚ
deriving DecidableEq, Repr

/-- The state-aggregate (root) organization label `"الدولة"`. -/
def stateOrg : String := "الدولة"

/-- The top-level ("ministry budget") budget-type label `"ميزانية الوزارة"`. -/
def ministryBudget : String := "ميزانية الوزارة"

/-- Sum of the `value` column of a list of rows (`.agg(sum)` on a selection). -/
def sumVals (rows : List BRow) : ℚ :=
  (rows.map (·.value)).sum

/-- `df.loc[df.year == year]`: the rows of the given year. -/
def yearRows (df : List BRow) (year : ℤ) : List BRow :=
  df.filter (fun r => r.year == year)

/-- `set(year_df.organization_name.unique())`: the distinct organizations of
the given year. -/
def uniqueOrganizations (df : List BRow) (year : ℤ) : Finset String :=
  ((yearRows df year).map (·.organization_name)).toFinset

/-- `set(year_df.loc[year_df.budget_type_name == top_level_budget_string,
"organization_name"].unique())`: the distinct organizations of the given year
carrying the top-level budget type. -/
def organizationsWithTopLevelBudget (df : List BRow) (year : ℤ)
    (top_level_budget_string : String) : Finset String :=
  (((yearRows df year).filter
      (fun r => r.budget_type_name == top_level_budget_string)).map
    (·.organization_name)).toFinset

/-- `top_level_budget(df, year, top_level_budget_string)` from `src/utils.py`:
restrict to the year, form the two organization sets, and return
`all − top` when `len(all) >= len(top)`, else `top − all`. -/
def top_level_budget (df : List BRow) (year : ℤ)
    (top_level_budget_string : String) : Finset String :=
  let unique_organizations := uniqueOrganizations df year
  let organization_w_top_level_budget :=
    organizationsWithTopLevelBudget df year top_level_budget_string
  if organization_w_top_level_budget.card ≤ unique_organizations.card then
    unique_organizations \ organization_w_top_level_budget
  else
    organization_w_top_level_budget \ unique_organizations

/-- Result record of `summed_state_budget` (the returned dict). -/
structure SummedStateBudget where
  sum_ministries : ℚ
  public_debt : ℚ
  imprev : ℚ
deriving DecidableEq, Repr

/-- `summed_state_budget(df, year)` from `src/utils.py`: three filtered sums
over `value`, each rounded to 4 decimal digits. -/
def summed_state_budget (df : List BRow) (year : ℤ) : SummedStateBudget :=
  let sum_ministries := sumVals (df.filter (fun r =>
    (r.organization_name != stateOrg) &&
    (r.budget_type_name == ministryBudget) && (r.year == year)))
  let sum_imprev := sumVals (df.filter (fun r =>
    (r.organization_name == stateOrg) &&
    ([ "نفقات طارئة و غير موزعة" ].contains r.budget_type_name) &&
    (r.year == year)))
  let sum_debt := sumVals (df.filter (fun r =>
    (r.organization_name == stateOrg) &&
    ([ "الدين العمومي" ].contains r.budget_type_name) &&
    (r.year == year)))
  { sum_ministries := roundTo 4 sum_ministries
    public_debt := roundTo 4 sum_debt
    imprev := roundTo 4 sum_imprev }

/-- `state_budget(df, year)` from `src/utils.py`: the typed state budget of
the year, rounded to an integer. -/
def state_budget (df : List BRow) (year : ℤ) : ℚ :=
  roundTo 0 (sumVals (df.filter (fun r =>
    (r.organization_name == stateOrg) &&
    (r.budget_type_name == "ميزانية الدولة") && (r.year == year))))

/-! ## `budget_gap` -/

/-- The grouping key of
`BUDGET.groupby(["year", "extra", "organization_name", "parent_name"])`. -/
structure AggKey where
  year : ℤ
  extra : String
  organization_name : String
  parent_name : String
deriving DecidableEq, Repr

/-- The grouping key of a row. -/
def keyOf (r : BRow) : AggKey :=
  ⟨r.year, r.extra, r.organization_name, r.parent_name⟩

/-- The summed `value` of one group. -/
def groupSum (df : List BRow) (k : AggKey) : ℚ :=
  sumVals (df.filter (fun r => keyOf r == k))

/-- `gen_agg = BUDGET.groupby([..]).agg(sum).reset_index()`: one row per
distinct group key, carrying the summed `value`.  The non-numeric
`budget_type_name` column is dropped by the aggregation (pandas excludes
non-numeric "nuisance" columns from a cython `sum`).  Pandas sorts groups by
key; every claim about `budget_gap` is a membership claim, so the embedding
keeps the keys in (deduplicated) encounter order. -/
def gen_agg (df : List BRow) : List (AggKey × ℚ) :=
  ((df.map keyOf).dedup).map (fun k => (k, groupSum df k))

/-- The `parent_name` column of the table. -/
def parentNames (df : List BRow) : List String :=
  df.map (·.parent_name)

/-- `gen_typed = BUDGET[BUDGET.budget_type_name.isin(BUDGET.parent_name)]`. -/
def gen_typed (df : List BRow) : List BRow :=
  df.filter (fun r => (parentNames df).contains r.budget_type_name)

/-- One row of the `pd.merge` inside `budget_gap`, after the four `.pipe`
stages, as an association list in pandas column order.  The merge coalesces
the same-named key pairs `organization_name`, `year`, `extra`; the colliding
`parent_name` and `value` columns get the suffixes `_agg` / `_typed`;
`budget_type_name` comes only from the right table and keeps its name.  The
two `pd.to_numeric` coercions are identities here (both value columns are
already numeric), and the `assign` calls append `gap` and `double` at the
end. -/
def mkMergedRow (a : AggKey × ℚ) (t : BRow) : List (String × Val) :=
  let value_agg := a.2
  let value_typed := t.value
  [("year", .int a.1.year),
   ("extra", .str a.1.extra),
   ("organization_name", .str a.1.organization_name),
   ("parent_name_agg", .str a.1.parent_name),
   ("value_agg", .num value_agg),
   ("parent_name_typed", .str t.parent_name),
   ("budget_type_name", .str t.budget_type_name),
   ("value_typed", .num value_typed),
   ("gap", .num (roundTo 3 (value_typed - value_agg))),
   ("double",
    .num (roundTo 3 (max value_agg value_typed / min value_agg value_typed)))]

/-- The inner `pd.merge` of `gen_agg` (on `parent_name, organization_name,
year, extra`) with `gen_typed` (on `budget_type_name, organization_name,
year, extra`), together with the numeric coercions and the `gap` / `double`
assignments. -/
def aggTypedJoin (df : List BRow) : List (List (String × Val)) :=
  (gen_agg df).flatMap (fun a =>
    (gen_typed df).filterMap (fun t =>
      if a.1.parent_name == t.budget_type_name
          && a.1.organization_name == t.organization_name
          && a.1.year == t.year && a.1.extra == t.extra
      then some (mkMergedRow a t) else none))

/-- `.drop(columns=["parent_name_agg"])` on one row. -/
def dropAggCol (m : List (String × Val)) : List (String × Val) :=
  m.filter (fun c => c.1 != "parent_name_agg")

/-- `budget_gap(df)` from `src/utils.py`: join the per-group aggregates with
the explicitly typed rows, add `gap` and `double`, exclude the
state-aggregate organization, and drop the left copy of the duplicated
parent-name column. -/
def budget_gap (df : List BRow) : List (List (String × Val)) :=
  ((aggTypedJoin df).filter
      (fun m => m.lookup "organization_name" != some (.str stateOrg))).map
    dropAggCol

/-! ## Generic data frames and `merge` -/

/-- A pandas `DataFrame` of arbitrary shape: a column-name list and rows of
cells, each row aligned positionally with the column list. -/
structure DFrame where
  cols : List String
  rows : List (List Val)
deriving DecidableEq, Repr

/-- The position of a column in a column list (`None` = pandas `KeyError`). -/
def colIdx (cols : List String) (c : String) : Option ℕ :=
  cols.findIdx? (fun c0 => c0 == c)

/-- The cell of a row at a column position. -/
def cellAt (r : List Val) (i : ℕ) : Val :=
  r.getD i (.str "")

/-- Output column names contributed by the left frame of a `pd.merge`:
a name colliding with a right-frame column is suffixed, except a join key
shared by name with the right key (pandas coalesces such a pair into a
single column). -/
def joinColsLeft (lcols rcols : List String) (lOn rOn sfx : String) :
    List String :=
  lcols.map (fun c =>
    if c ∈ rcols ∧ ¬(lOn = rOn ∧ c = lOn) then c ++ sfx else c)

/-- Output column names contributed by the right frame: when the two join
keys share a name the right key column is dropped (coalesced into the left
one); every remaining name colliding with a left-frame column is
suffixed. -/
def joinColsRight (lcols rcols : List String) (lOn rOn sfx : String)
    (ri : ℕ) : List String :=
  (if lOn = rOn then rcols.eraseIdx ri else rcols).map (fun c =>
    if c ∈ lcols ∧ ¬(lOn = rOn ∧ c = lOn) then c ++ sfx else c)

/-- The cells a right row contributes to a merged row (its key cell is
dropped when the keys are coalesced). -/
def joinRowRight (lOn rOn : String) (ri : ℕ) (v : List Val) : List Val :=
  if lOn = rOn then v.eraseIdx ri else v

/-- `pd.merge(left=ldf, left_on=lOn, right=rdf, right_on=rOn, suffixes)`:
an inner equi-join; a missing join key is a pandas `KeyError`. -/
def mergeJoin (ldf : DFrame) (lOn : String) (rdf : DFrame) (rOn : String)
    (lsfx rsfx : String) : Except String DFrame :=
  match colIdx ldf.cols lOn, colIdx rdf.cols rOn with
  | some li, some ri =>
      .ok
        { cols := joinColsLeft ldf.cols rdf.cols lOn rOn lsfx ++
            joinColsRight ldf.cols rdf.cols lOn rOn rsfx ri
          rows := ldf.rows.flatMap (fun h =>
            rdf.rows.filterMap (fun v =>
              if cellAt h li = cellAt v ri then
                some (h ++ joinRowRight lOn rOn ri v)
              else none)) }
  | _, _ => .error "KeyError"

/-- `.rename(columns=rename_cols)`: substitute matching names; names absent
from the frame are silently ignored (pandas default `errors="ignore"`). -/
def renameColumns (rename_cols : List (String × String)) (f : DFrame) :
    DFrame :=
  { f with cols := f.cols.map (fun c => (rename_cols.lookup c).getD c) }

/-- Remove one column (name and the cell at its position in every row). -/
def eraseColumn (f : DFrame) (c : String) : DFrame :=
  match colIdx f.cols c with
  | some i => { cols := f.cols.eraseIdx i, rows := f.rows.map (·.eraseIdx i) }
  | none => f

/-- `.drop(columns=drop_cols)`: a pandas `KeyError` if any listed column is
absent, otherwise remove the listed columns. -/
def dropColumns (drop_cols : List String) (f : DFrame) :
    Except String DFrame :=
  if drop_cols.all (fun c => c ∈ f.cols) then
    .ok (drop_cols.foldl eraseColumn f)
  else
    .error "KeyError"

/-- `merged.loc[:, col] = merged.loc[:, col].apply(g)`: one transformer
applied to every cell of one column; reading a missing column is a pandas
`KeyError`. -/
def applyOne (c : String) (g : Val → Val) (f : DFrame) :
    Except String DFrame :=
  match colIdx f.cols c with
  | some i =>
      .ok { cols := f.cols
            rows := f.rows.map (fun r => r.set i (g (cellAt r i))) }
  | none => .error "KeyError"

/-- The inner loop of `merge`: the transformers of one column, applied left
to right. -/
def applyList (c : String) (gs : List (Val → Val)) (f : DFrame) :
    Except String DFrame :=
  gs.foldlM (fun acc g => applyOne c g acc) f

/-- The outer loop of `merge`: each listed column's transformer list in
order (a Python dict iterates in insertion order). -/
def applyTransformers (transformers : List (String × List (Val → Val)))
    (f : DFrame) : Except String DFrame :=
  transformers.foldlM (fun acc cg => applyList cg.1 cg.2 acc) f

/-- `merge(hierarchy_df, hierarchy_df_on, values_df, values_df_on,
hierarchy_suffix, values_suffix, transformers, drop_cols, rename_cols)` from
`src/utils.py`: inner join, then rename, then drop, then the per-column
transformers. -/
def merge (hierarchy_df : DFrame) (hierarchy_df_on : String)
    (values_df : DFrame) (values_df_on : String)
    (hierarchy_suffix : String := "_x") (values_suffix : String := "_y")
    (transformers : List (String × List (Val → Val)) := [])
    (drop_cols : List String := []) (rename_cols : List (String × String) := []) :
    Except String DFrame := do
  let merged ← mergeJoin hierarchy_df hierarchy_df_on values_df values_df_on
    hierarchy_suffix values_suffix
  let merged := renameColumns rename_cols merged
  let merged ← dropColumns drop_cols merged
  applyTransformers transformers merged

/-! ## `generate_csv` -/

/-- The per-sheet try-body of `generate_csv` (`dropna` + `to_csv`),
abstracted as a fallible write keyed by sheet name; the except-branch prints
the sheet name and the exception and continues, modelled by collecting the
reported `(sheet, cause)` pairs.  The function returns the successfully
written sheet names and the reported pairs, in loop order. -/
def generate_csv (attempt : String → Except String Unit)
    (sheetNames : List String) : List String × List (String × String) :=
  sheetNames.foldl
    (fun acc sheet_name =>
      match attempt sheet_name with
      | .ok _ => (acc.1 ++ [sheet_name], acc.2)
      | .error e => (acc.1, acc.2 ++ [(sheet_name, e)]))
    ([], [])

/-! ## Refinement target, example tables and witness frames -/

/-- The set `organizationsMissingTopLevelBudget` is specified to return,
read literally off the claim: all organizations of the year minus those
carrying the top-level label (the plain set difference). -/
def top_level_budget_spec (df : List BRow) (year : ℤ) (lbl : String) :
    Finset String :=
  uniqueOrganizations df year \ organizationsWithTopLevelBudget df year lbl

/-- A two-row example table: a child line whose parent category also appears
as an explicitly typed row of the same organization, year and category. -/
def exampleTable : List BRow :=
  [⟨2020, "e", "org1", "ministry", "line1", 5⟩,
   ⟨2020, "e", "org1", "root", "ministry", 5⟩]

/-- The child group key of `exampleTable`. -/
def exampleKey : AggKey := ⟨2020, "e", "org1", "ministry"⟩

/-- The explicitly typed parent row of `exampleTable`. -/
def exampleTyped : BRow := ⟨2020, "e", "org1", "root", "ministry", 5⟩

/-- `exampleTable` with both values zero. -/
def exampleTableZero : List BRow :=
  [⟨2020, "e", "org1", "ministry", "line1", 0⟩,
   ⟨2020, "e", "org1", "root", "ministry", 0⟩]

/-- The explicitly typed parent row of `exampleTableZero`. -/
def exampleTypedZero : BRow := ⟨2020, "e", "org1", "root", "ministry", 0⟩

/-- A hierarchy frame used as a concrete witness input. -/
def witnessHierarchy : DFrame :=
  ⟨["k", "a"], [[.str "x", .int 1], [.str "y", .int 9]]⟩

/-- A values frame used as a concrete witness input; the key `"y"` of the
second hierarchy row has no match here. -/
def witnessValues : DFrame :=
  ⟨["k", "b"], [[.str "x", .int 2]]⟩

/-- The joined frame of the two witness frames. -/
def witnessJoined : DFrame :=
  ⟨["k", "a", "b"], [[.str "x", .int 1, .int 2]]⟩

/-! ## The object store: which frame each operation writes in place -/

/-- A store of pandas frame objects; a handle is an index.  Every operation
in `src/utils.py` builds its result with frame-returning pandas calls; the
only in-place write anywhere is the transformer loop of `merge`, which
assigns columns of the freshly created merged frame. -/
abbrev Store := List DFrame

/-- The frame read through an absent handle. -/
def dframeDefault : DFrame := ⟨[], []⟩

/-- One iteration of the transformer loop of `merge`, acting through the
store on the handle `m` of the merged frame: read the frame, apply one
transformer to one column, write the frame back through `m`; a raised
`KeyError` aborts the remaining iterations. -/
def transStep (m : ℕ) (acc : Store × Except String Unit)
    (cg : String × (Val → Val)) : Store × Except String Unit :=
  match acc.2 with
  | .error _ => acc
  | .ok _ =>
    match applyOne cg.1 cg.2 (acc.1.getD m dframeDefault) with
    | .ok f => (acc.1.set m f, .ok ())
    | .error e => (acc.1, .error e)

/-- `merge` acting on the store: the two input frames are read through
their handles; `pd.merge`, `rename` and `drop` build a fresh frame, which
is appended to the store as a new handle; the nested transformer loops
(flattened into one write sequence) write through that handle only. -/
def mergeStore (σ : Store) (hIdx vIdx : ℕ) (hOn vOn lsfx rsfx : String)
    (transformers : List (String × List (Val → Val)))
    (drop_cols : List String) (rename_cols : List (String × String)) :
    Store × Except String ℕ :=
  match mergeJoin (σ.getD hIdx dframeDefault) hOn
      (σ.getD vIdx dframeDefault) vOn lsfx rsfx with
  | .error e => (σ, .error e)
  | .ok j =>
    match dropColumns drop_cols (renameColumns rename_cols j) with
    | .error e => (σ, .error e)
    | .ok d =>
      match (transformers.flatMap (fun cg =>
          cg.2.map (fun g => (cg.1, g)))).foldl
          (transStep σ.length) (σ ++ [d], .ok ()) with
      | (σ2, .ok _) => (σ2, .ok σ.length)
      | (σ2, .error e) => (σ2, .error e)

/-- A store of merged-budget tables. -/
abbrev BStore := List (List BRow)

/-- `top_level_budget` acting on the store: a pure read, no write. -/
def top_level_budgetStore (σ : BStore) (i : ℕ) (year : ℤ) (lbl : String) :
    BStore × Finset String :=
  (σ, top_level_budget (σ.getD i []) year lbl)

/-- `summed_state_budget` acting on the store: a pure read, no write. -/
def summed_state_budgetStore (σ : BStore) (i : ℕ) (year : ℤ) :
    BStore × SummedStateBudget :=
  (σ, summed_state_budget (σ.getD i []) year)

/-- `state_budget` acting on the store: a pure read, no write. -/
def state_budgetStore (σ : BStore) (i : ℕ) (year : ℤ) : BStore × ℚ :=
  (σ, state_budget (σ.getD i []) year)

/-- `budget_gap` acting on the store: every pipeline stage returns a fresh
frame, so the store is read, never written. -/
def budget_gapStore (σ : BStore) (i : ℕ) :
    BStore × List (List (String × Val)) :=
  (σ, budget_gap (σ.getD i []))

/-- A concrete two-frame store for the C9 witness. -/
def witnessStore : Store := [witnessHierarchy, witnessValues]

/-- A concrete one-table store for the C9 witness. -/
def witnessBStore : BStore := [exampleTable]

/-- A concrete per-sheet write oracle that fails on the sheet `"bad"`. -/
def witnessAttempt : String → Except String Unit :=
  fun sheet_name =>
    if sheet_name == "bad" then .error "boom" else .ok ()

/-! ## Theorems -/

theorem roundHalfEven_intCast (n : ℤ) : roundHalfEven (n : ℚ) = n := by
  unfold roundHalfEven
  rw [Int.floor_intCast, sub_self]
  norm_num

theorem roundTo_intCast (d : ℕ) (n : ℤ) : roundTo d (n : ℚ) = n := by
  unfold roundTo
  rw [show (n : ℚ) * 10 ^ d = ((n * 10 ^ d : ℤ) : ℚ) by push_cast; ring,
    roundHalfEven_intCast]
  push_cast
  field_simp

@[simp] theorem roundTo_zero (d : ℕ) : roundTo d 0 = 0 := by
  simpa using roundTo_intCast d 0

@[simp] theorem roundTo_one (d : ℕ) : roundTo d 1 = 1 := by
  simpa using roundTo_intCast d 1

example : roundTo 0 (5/2 : ℚ) = 2 := by
  norm_num [roundTo, roundHalfEven]
example : top_level_budget
    [⟨2020, "e", "A", "p", ministryBudget, 1⟩,
     ⟨2020, "e", "B", "p", "other", 2⟩] 2020 ministryBudget = {"B"} := by decide
example : summed_state_budget
    [⟨2020, "e", "A", "p", ministryBudget, 10⟩,
     ⟨2020, "e", "B", "p", ministryBudget, 20⟩,
     ⟨2020, "e", stateOrg, "p", "ميزانية الدولة", 35⟩] 2020 =
    ⟨30, 0, 0⟩ := by
  have h30 := roundTo_intCast 4 30
  have h0 := roundTo_intCast 4 0
  norm_num at h30 h0
  norm_num +decide [summed_state_budget, sumVals, stateOrg, ministryBudget,
    List.filter_cons, h30, h0]
example : state_budget
    [⟨2020, "e", stateOrg, "p", "ميزانية الدولة", 35⟩] 2020 = 35 := by
  have h35 := roundTo_intCast 0 35
  norm_num at h35
  norm_num +decide [state_budget, sumVals, stateOrg, List.filter_cons, h35]

theorem orgsWithTopLevel_subset (df : List BRow) (year : ℤ) (lbl : String) :
    organizationsWithTopLevelBudget df year lbl ⊆ uniqueOrganizations df year := by
  intro x hx
  simp only [organizationsWithTopLevelBudget, uniqueOrganizations,
    List.mem_toFinset, List.mem_map] at hx ⊢
  obtain ⟨r, hr, hrx⟩ := hx
  exact ⟨r, (List.mem_filter.mp hr).1, hrx⟩

/-- C10: the "has top-level budget" set is computed from the same
year-restricted rows as the "all organizations" set and is always a subset
of it; hence the size guard always holds (the reverse-difference branch is
never taken) and `top_level_budget` always equals the plain set
difference. -/
theorem top_level_budget_eq_plain_difference (df : List BRow) (year : ℤ)
    (lbl : String) :
    organizationsWithTopLevelBudget df year lbl ⊆ uniqueOrganizations df year ∧
    (organizationsWithTopLevelBudget df year lbl).card ≤
      (uniqueOrganizations df year).card ∧
    top_level_budget df year lbl = top_level_budget_spec df year lbl := by
  have hsub := orgsWithTopLevel_subset df year lbl
  have hcard := Finset.card_le_card hsub
  exact ⟨hsub, hcard, by simp [top_level_budget, top_level_budget_spec, hcard]⟩

/-- C2: `top_level_budget` restricts to the year, forms the two
organization sets, and returns the larger set minus the smaller; whenever
the "has top-level budget" set is at least as large as the "all
organizations" set (the tie case included), the result equals the reverse
difference. -/
theorem top_level_budget_larger_minus_smaller (df : List BRow) (year : ℤ)
    (lbl : String) :
    top_level_budget df year lbl =
      (if (organizationsWithTopLevelBudget df year lbl).card ≤
          (uniqueOrganizations df year).card then
        uniqueOrganizations df year \ organizationsWithTopLevelBudget df year lbl
      else
        organizationsWithTopLevelBudget df year lbl \ uniqueOrganizations df year) ∧
    ((uniqueOrganizations df year).card ≤
        (organizationsWithTopLevelBudget df year lbl).card →
      top_level_budget df year lbl =
        organizationsWithTopLevelBudget df year lbl \ uniqueOrganizations df year) := by
  refine ⟨rfl, fun hle => ?_⟩
  have heq : organizationsWithTopLevelBudget df year lbl =
      uniqueOrganizations df year :=
    Finset.eq_of_subset_of_card_le (orgsWithTopLevel_subset df year lbl) hle
  simp [top_level_budget, heq]

/-- Witness for C2 at a concrete table where the two sets tie. -/
theorem top_level_budget_larger_minus_smaller_witness :
    top_level_budget [⟨2020, "e", "A", "p", ministryBudget, 1⟩] 2020
        ministryBudget =
      organizationsWithTopLevelBudget [⟨2020, "e", "A", "p", ministryBudget, 1⟩]
        2020 ministryBudget \
      uniqueOrganizations [⟨2020, "e", "A", "p", ministryBudget, 1⟩] 2020 :=
  (top_level_budget_larger_minus_smaller
    [⟨2020, "e", "A", "p", ministryBudget, 1⟩] 2020 ministryBudget).2 (by decide)

/-- C7: when no row matches the requested year, the three sums of
`summed_state_budget` are `0`, `state_budget` is `0`, and
`top_level_budget` is the empty set; none of the validators can fail on an
empty selection (they are total functions in this embedding, as the pandas
sum of an empty selection is `0`). -/
theorem validators_empty_year (df : List BRow) (year : ℤ) (lbl : String)
    (h : ∀ r ∈ df, r.year ≠ year) :
    summed_state_budget df year = ⟨0, 0, 0⟩ ∧
    state_budget df year = 0 ∧
    top_level_budget df year lbl = ∅ := by
  have hyear : ∀ p : BRow → Bool,
      df.filter (fun r => p r && (r.year == year)) = [] := by
    intro p
    rw [List.filter_eq_nil_iff]
    intro r hr
    simp [h r hr]
  have hyr : yearRows df year = [] := by
    unfold yearRows
    rw [List.filter_eq_nil_iff]
    intro r hr
    simp [h r hr]
  refine ⟨?_, ?_, ?_⟩
  · unfold summed_state_budget
    rw [show ∀ y : ℤ, (fun r : BRow => (r.organization_name != stateOrg) &&
        (r.budget_type_name == ministryBudget) && (r.year == y)) =
        (fun r : BRow => ((r.organization_name != stateOrg) &&
          (r.budget_type_name == ministryBudget)) && (r.year == y))
      from fun _ => by funext r; rw [Bool.and_assoc]]
    rw [show ∀ y : ℤ, (fun r : BRow => (r.organization_name == stateOrg) &&
        ([ "نفقات طارئة و غير موزعة" ].contains r.budget_type_name) &&
        (r.year == y)) =
        (fun r : BRow => ((r.organization_name == stateOrg) &&
          ([ "نفقات طارئة و غير موزعة" ].contains r.budget_type_name)) &&
          (r.year == y))
      from fun _ => by funext r; rw [Bool.and_assoc]]
    rw [show ∀ y : ℤ, (fun r : BRow => (r.organization_name == stateOrg) &&
        ([ "الدين العمومي" ].contains r.budget_type_name) && (r.year == y)) =
        (fun r : BRow => ((r.organization_name == stateOrg) &&
          ([ "الدين العمومي" ].contains r.budget_type_name)) && (r.year == y))
      from fun _ => by funext r; rw [Bool.and_assoc]]
    simp only [hyear, sumVals, List.map_nil, List.sum_nil, roundTo_zero]
  · unfold state_budget
    rw [show (fun r : BRow => (r.organization_name == stateOrg) &&
        (r.budget_type_name == "ميزانية الدولة") && (r.year == year)) =
        (fun r : BRow => ((r.organization_name == stateOrg) &&
          (r.budget_type_name == "ميزانية الدولة")) && (r.year == year))
      from by funext r; rw [Bool.and_assoc]]
    simp only [hyear, sumVals, List.map_nil, List.sum_nil, roundTo_zero]
  · simp [top_level_budget, uniqueOrganizations,
      organizationsWithTopLevelBudget, hyr]

/-- Witness for C7: a table whose only row is from another year. -/
theorem validators_empty_year_witness :
    (∀ r ∈ [(⟨2019, "e", "A", "p", ministryBudget, 7⟩ : BRow)], r.year ≠ 2020) ∧
    (summed_state_budget [⟨2019, "e", "A", "p", ministryBudget, 7⟩] 2020 =
        ⟨0, 0, 0⟩ ∧
      state_budget [⟨2019, "e", "A", "p", ministryBudget, 7⟩] 2020 = 0 ∧
      top_level_budget [⟨2019, "e", "A", "p", ministryBudget, 7⟩] 2020
          ministryBudget = ∅) :=
  ⟨by decide, validators_empty_year
    [⟨2019, "e", "A", "p", ministryBudget, 7⟩] 2020 ministryBudget (by decide)⟩

theorem lookup_org_mkMergedRow (a : AggKey × ℚ) (t : BRow) :
    (mkMergedRow a t).lookup "organization_name" =
      some (.str a.1.organization_name) := by
  simp [mkMergedRow, List.lookup]

theorem dropAggCol_mkMergedRow (a : AggKey × ℚ) (t : BRow) :
    dropAggCol (mkMergedRow a t) =
      [("year", .int a.1.year),
       ("extra", .str a.1.extra),
       ("organization_name", .str a.1.organization_name),
       ("value_agg", .num a.2),
       ("parent_name_typed", .str t.parent_name),
       ("budget_type_name", .str t.budget_type_name),
       ("value_typed", .num t.value),
       ("gap", .num (roundTo 3 (t.value - a.2))),
       ("double",
        .num (roundTo 3 (max a.2 t.value / min a.2 t.value)))] := by
  simp [dropAggCol, mkMergedRow]

theorem mem_budget_gap (df : List BRow) (m : List (String × Val)) :
    m ∈ budget_gap df ↔
      ∃ k ∈ (df.map keyOf).dedup, ∃ t ∈ gen_typed df,
        (k.parent_name = t.budget_type_name ∧
         k.organization_name = t.organization_name ∧
         k.year = t.year ∧ k.extra = t.extra) ∧
        k.organization_name ≠ stateOrg ∧
        m = dropAggCol (mkMergedRow (k, groupSum df k) t) := by
  unfold budget_gap aggTypedJoin gen_agg
  simp only [List.mem_map, List.mem_filter, List.mem_flatMap,
    List.mem_filterMap]
  constructor
  · rintro ⟨m0, ⟨⟨a, ⟨k, hk, rfl⟩, t, ht, hcond⟩, horg⟩, rfl⟩
    by_cases hc : ((k.parent_name == t.budget_type_name) &&
        (k.organization_name == t.organization_name) &&
        (k.year == t.year) && (k.extra == t.extra)) = true
    · rw [if_pos hc] at hcond
      obtain rfl := Option.some_injective _ hcond
      simp only [Bool.and_eq_true, beq_iff_eq] at hc
      rw [lookup_org_mkMergedRow] at horg
      refine ⟨k, hk, t, ht, ⟨hc.1.1.1, hc.1.1.2, hc.1.2, hc.2⟩, ?_, rfl⟩
      simpa [stateOrg] using horg
    · rw [if_neg hc] at hcond
      exact absurd hcond (by simp)
  · rintro ⟨k, hk, t, ht, ⟨h1, h2, h3, h4⟩, horg, rfl⟩
    refine ⟨mkMergedRow (k, groupSum df k) t,
      ⟨⟨(k, groupSum df k), ⟨k, hk, rfl⟩, t, ht, ?_⟩, ?_⟩, rfl⟩
    · rw [if_pos (by simp [h1, h2, h3, h4])]
    · rw [lookup_org_mkMergedRow]
      simp [horg]

theorem exampleRow_mem :
    dropAggCol (mkMergedRow (exampleKey, groupSum exampleTable exampleKey)
        exampleTyped) ∈
      budget_gap exampleTable :=
  (mem_budget_gap _ _).mpr
    ⟨exampleKey, by decide, exampleTyped, by decide, by decide, by decide, rfl⟩

theorem exampleRowZero_mem :
    dropAggCol (mkMergedRow (exampleKey, groupSum exampleTableZero exampleKey)
        exampleTypedZero) ∈
      budget_gap exampleTableZero :=
  (mem_budget_gap _ _).mpr
    ⟨exampleKey, by decide, exampleTypedZero, by decide, by decide, by decide,
      rfl⟩

theorem groupSum_exampleTable : groupSum exampleTable exampleKey = 5 := by
  norm_num +decide [groupSum, sumVals, exampleTable, exampleKey, keyOf,
    List.filter_cons]

theorem groupSum_exampleTableZero :
    groupSum exampleTableZero exampleKey = 0 := by
  norm_num +decide [groupSum, sumVals, exampleTableZero, exampleKey, keyOf,
    List.filter_cons]

/-- C1 (amended): every output row of `budget_gap` has exactly the columns
`year, extra, organization_name, value_agg, parent_name_typed,
budget_type_name, value_typed, gap, double`, in this order: the left copy
`parent_name_agg` of the duplicated parent-name column is dropped, but the
surviving right copy keeps the suffixed name `parent_name_typed` (no column
named `parent_name` exists), and the typed row's `budget_type_name` column
is also present. -/
theorem budget_gap_columns (df : List BRow) (m : List (String × Val))
    (hm : m ∈ budget_gap df) :
    m.map Prod.fst =
      ["year", "extra", "organization_name", "value_agg",
       "parent_name_typed", "budget_type_name", "value_typed", "gap",
       "double"] := by
  rw [mem_budget_gap] at hm
  obtain ⟨k, -, t, -, -, -, rfl⟩ := hm
  simp [dropAggCol_mkMergedRow]

/-- Witness for C1 at `exampleTable`. -/
theorem budget_gap_columns_witness :
    (dropAggCol (mkMergedRow (exampleKey, groupSum exampleTable exampleKey)
        exampleTyped)).map Prod.fst =
      ["year", "extra", "organization_name", "value_agg",
       "parent_name_typed", "budget_type_name", "value_typed", "gap",
       "double"] :=
  budget_gap_columns exampleTable _ exampleRow_mem

/-- Counterexample to C1 as stated: at `exampleTable`, `budget_gap` has an
output row with no column named `parent_name` at all (the kept column is
`parent_name_typed`), and with a `budget_type_name` column that the claimed
exact column set does not mention. -/
theorem budget_gap_columns_counterexample :
    ∃ m ∈ budget_gap exampleTable,
      "parent_name" ∉ m.map Prod.fst ∧
      "budget_type_name" ∈ m.map Prod.fst := by
  refine ⟨_, exampleRow_mem, ?_, ?_⟩ <;> (rw [dropAggCol_mkMergedRow]; decide)

/-- C3: every output row of `budget_gap` carries `value_agg` equal to the
summed `value` of its `(year, extra, organization_name, parent_name)` group,
`value_typed` equal to the matching explicitly typed row's `value`,
`gap = round(value_typed - value_agg, 3)` and
`double = round(max(value_agg, value_typed) / min(value_agg, value_typed),
3)`. -/
theorem budget_gap_gap_double_formulas (df : List BRow)
    (m : List (String × Val)) (hm : m ∈ budget_gap df) :
    ∃ k ∈ (df.map keyOf).dedup, ∃ t ∈ gen_typed df,
      k.parent_name = t.budget_type_name ∧
      k.organization_name = t.organization_name ∧
      k.year = t.year ∧ k.extra = t.extra ∧
      m.lookup "value_agg" = some (.num (groupSum df k)) ∧
      m.lookup "value_typed" = some (.num t.value) ∧
      m.lookup "gap" = some (.num (roundTo 3 (t.value - groupSum df k))) ∧
      m.lookup "double" = some (.num (roundTo 3
        (max (groupSum df k) t.value / min (groupSum df k) t.value))) := by
  rw [mem_budget_gap] at hm
  obtain ⟨k, hk, t, ht, ⟨h1, h2, h3, h4⟩, -, rfl⟩ := hm
  refine ⟨k, hk, t, ht, h1, h2, h3, h4, ?_, ?_, ?_, ?_⟩ <;>
    (rw [dropAggCol_mkMergedRow]; simp [List.lookup])

/-- Witness for C3 at `exampleTable`. -/
theorem budget_gap_gap_double_formulas_witness :
    ∃ k ∈ (exampleTable.map keyOf).dedup, ∃ t ∈ gen_typed exampleTable,
      k.parent_name = t.budget_type_name ∧
      k.organization_name = t.organization_name ∧
      k.year = t.year ∧ k.extra = t.extra ∧
      (dropAggCol (mkMergedRow (exampleKey,
          groupSum exampleTable exampleKey) exampleTyped)).lookup
        "value_agg" = some (.num (groupSum exampleTable k)) ∧
      (dropAggCol (mkMergedRow (exampleKey,
          groupSum exampleTable exampleKey) exampleTyped)).lookup
        "value_typed" = some (.num t.value) ∧
      (dropAggCol (mkMergedRow (exampleKey,
          groupSum exampleTable exampleKey) exampleTyped)).lookup
        "gap" = some (.num (roundTo 3 (t.value - groupSum exampleTable k))) ∧
      (dropAggCol (mkMergedRow (exampleKey,
          groupSum exampleTable exampleKey) exampleTyped)).lookup
        "double" = some (.num (roundTo 3 (max (groupSum exampleTable k)
          t.value / min (groupSum exampleTable k) t.value))) :=
  budget_gap_gap_double_formulas exampleTable _ exampleRow_mem

/-- C6 (amended): in every output row of `budget_gap` whose `value_agg` and
`value_typed` agree on a nonzero value, `gap` is `0` and `double` is `1`
(when the common value is `0` the ratio `double` is a division by zero and
is not `1`); and no output row's `organization_name` is the state-aggregate
label. -/
theorem budget_gap_equal_group (df : List BRow) :
    (∀ m ∈ budget_gap df, ∀ v : ℚ,
        m.lookup "value_agg" = some (.num v) →
        m.lookup "value_typed" = some (.num v) → v ≠ 0 →
        m.lookup "gap" = some (.num 0) ∧
        m.lookup "double" = some (.num 1)) ∧
    (∀ m ∈ budget_gap df,
      m.lookup "organization_name" ≠ some (.str stateOrg)) := by
  constructor
  · intro m hm v hva hvt hv
    rw [mem_budget_gap] at hm
    obtain ⟨k, -, t, -, -, -, rfl⟩ := hm
    rw [dropAggCol_mkMergedRow] at hva hvt ⊢
    simp [List.lookup] at hva hvt
    subst hva
    constructor
    · simp [List.lookup, hvt]
    · simp [List.lookup, hvt, div_self hv]
  · intro m hm
    rw [mem_budget_gap] at hm
    obtain ⟨k, -, t, -, -, horg, rfl⟩ := hm
    rw [dropAggCol_mkMergedRow]
    simp [List.lookup, horg]

/-- Witness for C6 at `exampleTable` (common value `5`). -/
theorem budget_gap_equal_group_witness :
    (dropAggCol (mkMergedRow (exampleKey, groupSum exampleTable exampleKey)
        exampleTyped)).lookup "gap" = some (.num 0) ∧
    (dropAggCol (mkMergedRow (exampleKey, groupSum exampleTable exampleKey)
        exampleTyped)).lookup "double" = some (.num 1) :=
  (budget_gap_equal_group exampleTable).1 _ exampleRow_mem 5
    (by rw [dropAggCol_mkMergedRow]; simp [List.lookup, groupSum_exampleTable])
    (by rw [dropAggCol_mkMergedRow]; simp [List.lookup, exampleTyped])
    (by norm_num)

/-- Counterexample to C6 as stated: at `exampleTableZero` the typed parent
value (`0`) equals the summed child value (`0`), yet the corresponding
output row's `double` is not `1` (the ratio is a division by zero). -/
theorem budget_gap_equal_group_counterexample :
    ∃ m ∈ budget_gap exampleTableZero,
      m.lookup "value_agg" = some (.num 0) ∧
      m.lookup "value_typed" = some (.num 0) ∧
      m.lookup "double" ≠ some (.num 1) := by
  refine ⟨_, exampleRowZero_mem, ?_, ?_, ?_⟩ <;>
    rw [dropAggCol_mkMergedRow]
  · simp [List.lookup, groupSum_exampleTableZero]
  · simp [List.lookup, exampleTypedZero]
  · simp [List.lookup, groupSum_exampleTableZero, exampleTypedZero]

theorem renameColumns_nil (f : DFrame) : renameColumns [] f = f := by
  cases f
  simp [renameColumns]

/-- C5: with no renames, drops or transformers, `merge` is exactly the inner
equi-join of the two tables: every matching row pairing is present in the
result, and every result row is such a pairing — a row of either input with
no matching join-key value in the other contributes nothing. -/
theorem merge_inner_join (hierarchy_df values_df : DFrame)
    (hOn vOn lsfx rsfx : String) (li ri : ℕ)
    (hli : colIdx hierarchy_df.cols hOn = some li)
    (hri : colIdx values_df.cols vOn = some ri) :
    ∃ j : DFrame,
      merge hierarchy_df hOn values_df vOn lsfx rsfx [] [] [] = .ok j ∧
      (∀ h ∈ hierarchy_df.rows, ∀ v ∈ values_df.rows,
        cellAt h li = cellAt v ri →
          h ++ joinRowRight hOn vOn ri v ∈ j.rows) ∧
      (∀ m ∈ j.rows, ∃ h ∈ hierarchy_df.rows, ∃ v ∈ values_df.rows,
        cellAt h li = cellAt v ri ∧
        m = h ++ joinRowRight hOn vOn ri v) := by
  obtain ⟨j, hj, hrows⟩ : ∃ j,
      merge hierarchy_df hOn values_df vOn lsfx rsfx [] [] [] = .ok j ∧
      j.rows = hierarchy_df.rows.flatMap (fun h =>
        values_df.rows.filterMap (fun v =>
          if cellAt h li = cellAt v ri then
            some (h ++ joinRowRight hOn vOn ri v)
          else none)) := by
    unfold merge mergeJoin
    rw [hli, hri]
    exact ⟨_, rfl, rfl⟩
  refine ⟨j, hj, ?_, ?_⟩
  · intro h hh v hv hkey
    rw [hrows]
    simp only [List.mem_flatMap, List.mem_filterMap]
    exact ⟨h, hh, v, hv, by rw [if_pos hkey]⟩
  · intro m hm
    rw [hrows] at hm
    simp only [List.mem_flatMap, List.mem_filterMap] at hm
    obtain ⟨h, hh, v, hv, hcond⟩ := hm
    by_cases hkey : cellAt h li = cellAt v ri
    · rw [if_pos hkey] at hcond
      exact ⟨h, hh, v, hv, hkey, (Option.some_injective _ hcond).symm⟩
    · rw [if_neg hkey] at hcond
      exact absurd hcond (by simp)

/-- Witness for C5 at two concrete one-key frames. -/
theorem merge_inner_join_witness :
    ∃ j : DFrame,
      merge witnessHierarchy "k" witnessValues "k" "_x" "_y" [] [] [] =
        .ok j ∧
      (∀ h ∈ witnessHierarchy.rows, ∀ v ∈ witnessValues.rows,
        cellAt h 0 = cellAt v 0 → h ++ joinRowRight "k" "k" 0 v ∈ j.rows) ∧
      (∀ m ∈ j.rows, ∃ h ∈ witnessHierarchy.rows, ∃ v ∈ witnessValues.rows,
        cellAt h 0 = cellAt v 0 ∧ m = h ++ joinRowRight "k" "k" 0 v) :=
  merge_inner_join witnessHierarchy witnessValues "k" "k" "_x" "_y" 0 0
    (by decide) (by decide)

theorem set_cellAt_self (r : List Val) (i : ℕ) : r.set i (cellAt r i) = r := by
  rcases Nat.lt_or_ge i r.length with h | h
  · apply List.ext_getElem?
    intro j
    rw [List.getElem?_set]
    by_cases heq : i = j
    · subst heq
      rw [if_pos rfl, if_pos h, cellAt, List.getD_eq_getElem?_getD,
        List.getElem?_eq_getElem h]
      rfl
    · rw [if_neg heq]
  · rw [List.set_eq_of_length_le h]

theorem cellAt_set (r : List Val) (i : ℕ) (v : Val) :
    cellAt (r.set i v) i = if i < r.length then v else cellAt r i := by
  rcases Nat.lt_or_ge i r.length with h | h
  · rw [if_pos h, cellAt, List.getD_eq_getElem?_getD,
      List.getElem?_set_self h]
    rfl
  · rw [if_neg (Nat.not_lt.mpr h), List.set_eq_of_length_le h]

theorem applyOne_eq (c : String) (g : Val → Val) (f : DFrame) (i : ℕ)
    (hc : colIdx f.cols c = some i) :
    applyOne c g f =
      .ok ⟨f.cols, f.rows.map (fun r => r.set i (g (cellAt r i)))⟩ := by
  unfold applyOne
  rw [hc]

theorem applyOne_err (c : String) (g : Val → Val) (f : DFrame)
    (hc : colIdx f.cols c = none) :
    applyOne c g f = .error "KeyError" := by
  unfold applyOne
  rw [hc]

theorem applyList_cons (c : String) (g : Val → Val) (gs : List (Val → Val))
    (f : DFrame) :
    applyList c (g :: gs) f = applyOne c g f >>= applyList c gs := rfl

theorem applyList_ok (c : String) (gs : List (Val → Val)) (f : DFrame)
    (i : ℕ) (hc : colIdx f.cols c = some i) :
    applyList c gs f =
      .ok ⟨f.cols, f.rows.map (fun r =>
        r.set i (gs.foldl (fun a g => g a) (cellAt r i)))⟩ := by
  induction gs generalizing f with
  | nil =>
    unfold applyList
    rw [List.foldlM_nil]
    cases f
    simp [set_cellAt_self]
    rfl
  | cons g gs ih =>
    rw [applyList_cons, applyOne_eq c g f i hc]
    have hbind : (Except.ok (⟨f.cols, f.rows.map (fun r =>
          r.set i (g (cellAt r i)))⟩ : DFrame) :
        Except String DFrame) >>= applyList c gs =
        applyList c gs ⟨f.cols, f.rows.map (fun r =>
          r.set i (g (cellAt r i)))⟩ := rfl
    rw [hbind, ih ⟨f.cols, f.rows.map (fun r =>
      r.set i (g (cellAt r i)))⟩ hc]
    simp only [DFrame.mk.injEq, Except.ok.injEq]
    refine ⟨trivial, ?_⟩
    rw [List.map_map]
    apply List.map_congr_left
    intro r hr
    show (r.set i (g (cellAt r i))).set i
        (gs.foldl (fun a g => g a)
          (cellAt (r.set i (g (cellAt r i))) i)) =
      r.set i (List.foldl (fun a g => g a) (cellAt r i) (g :: gs))
    rw [List.foldl_cons, List.set_set, cellAt_set]
    split
    · rfl
    · next h =>
      have h' : r.length ≤ i := Nat.le_of_not_lt h
      rw [List.set_eq_of_length_le h', List.set_eq_of_length_le h']

theorem applyList_err (c : String) (g : Val → Val) (gs : List (Val → Val))
    (f : DFrame) (hc : colIdx f.cols c = none) :
    applyList c (g :: gs) f = .error "KeyError" := by
  rw [applyList_cons, applyOne_err c g f hc]
  rfl

theorem renameColumns_pair_cols (oldName newName : String) (f : DFrame) :
    (renameColumns [(oldName, newName)] f).cols =
      f.cols.map (fun c => if c = oldName then newName else c) := by
  simp only [renameColumns]
  refine List.map_congr_left fun c _ => ?_
  by_cases h : c = oldName
  · subst h
    simp [List.lookup]
  · have hbe : (c == oldName) = false := beq_eq_false_iff_ne.mpr h
    simp [List.lookup, hbe, h]

theorem mem_rename_new (oldName newName : String) (f : DFrame)
    (hold : oldName ∈ f.cols) :
    newName ∈ (renameColumns [(oldName, newName)] f).cols := by
  rw [renameColumns_pair_cols]
  exact List.mem_map.mpr ⟨oldName, hold, by simp⟩

theorem not_mem_rename_old (oldName newName : String) (f : DFrame)
    (hne : oldName ≠ newName) :
    oldName ∉ (renameColumns [(oldName, newName)] f).cols := by
  rw [renameColumns_pair_cols]
  intro hmem
  obtain ⟨c, -, hc⟩ := List.mem_map.mp hmem
  by_cases h : c = oldName
  · subst h
    rw [if_pos rfl] at hc
    exact hne hc.symm
  · rw [if_neg h] at hc
    exact h hc

theorem colIdx_some_of_mem (cols : List String) (c : String)
    (h : c ∈ cols) : ∃ i, colIdx cols c = some i := by
  cases hc : colIdx cols c with
  | some i => exact ⟨i, rfl⟩
  | none => exact absurd (List.findIdx?_eq_none_iff.mp hc c h) (by simp)

theorem colIdx_none_of_not_mem (cols : List String) (c : String)
    (h : c ∉ cols) : colIdx cols c = none := by
  rw [colIdx, List.findIdx?_eq_none_iff]
  intro x hx
  exact beq_eq_false_iff_ne.mpr (fun heq => h (heq ▸ hx))

theorem merge_eq_of_join (hierarchy_df : DFrame) (hOn : String)
    (values_df : DFrame) (vOn lsfx rsfx : String)
    (transformers : List (String × List (Val → Val)))
    (drop_cols : List String) (rename_cols : List (String × String))
    (j : DFrame)
    (hj : mergeJoin hierarchy_df hOn values_df vOn lsfx rsfx = .ok j) :
    merge hierarchy_df hOn values_df vOn lsfx rsfx transformers drop_cols
        rename_cols =
      dropColumns drop_cols (renameColumns rename_cols j) >>=
        applyTransformers transformers := by
  unfold merge
  rw [hj]
  rfl

theorem dropColumns_nil (f : DFrame) : dropColumns [] f = .ok f := rfl

theorem dropColumns_singleton_err (c : String) (f : DFrame)
    (h : c ∉ f.cols) : dropColumns [c] f = .error "KeyError" := by
  unfold dropColumns
  rw [if_neg (by simp [h])]

theorem dropColumns_singleton_ok (c : String) (f : DFrame) (h : c ∈ f.cols) :
    dropColumns [c] f = .ok (eraseColumn f c) := by
  unfold dropColumns
  rw [if_pos (by simp [h])]
  rfl

/-- C4: `merge` applies join, then rename, then drop, then the per-column
transformer lists (each list applied to every cell left to right, each
function's output feeding the next): after renaming a joined column
`oldName` to `newName`, a transformer keyed by `newName` succeeds and maps
each cell through the composed transformer list, a transformer keyed by
`oldName` raises `KeyError`, a drop of `oldName` raises `KeyError`, and a
drop of `newName` succeeds. -/
theorem merge_order_contract (hierarchy_df values_df : DFrame)
    (hOn vOn lsfx rsfx oldName newName : String) (gs : List (Val → Val))
    (j : DFrame)
    (hj : mergeJoin hierarchy_df hOn values_df vOn lsfx rsfx = .ok j)
    (hold : oldName ∈ j.cols) (hnew : newName ∉ j.cols)
    (hne : oldName ≠ newName) (hgs : gs ≠ []) :
    (∃ i, colIdx (renameColumns [(oldName, newName)] j).cols newName =
        some i ∧
      merge hierarchy_df hOn values_df vOn lsfx rsfx [(newName, gs)] []
          [(oldName, newName)] =
        .ok ⟨(renameColumns [(oldName, newName)] j).cols,
          j.rows.map (fun r =>
            r.set i (gs.foldl (fun a g => g a) (cellAt r i)))⟩) ∧
    merge hierarchy_df hOn values_df vOn lsfx rsfx [(oldName, gs)] []
        [(oldName, newName)] = .error "KeyError" ∧
    merge hierarchy_df hOn values_df vOn lsfx rsfx [] [oldName]
        [(oldName, newName)] = .error "KeyError" ∧
    merge hierarchy_df hOn values_df vOn lsfx rsfx [] [newName]
        [(oldName, newName)] =
      .ok (eraseColumn (renameColumns [(oldName, newName)] j) newName) := by
  have hrenNew := mem_rename_new oldName newName j hold
  have hrenOld := not_mem_rename_old oldName newName j hne
  obtain ⟨i, hi⟩ := colIdx_some_of_mem _ _ hrenNew
  refine ⟨⟨i, hi, ?_⟩, ?_, ?_, ?_⟩
  · rw [merge_eq_of_join _ _ _ _ _ _ _ _ _ j hj, dropColumns_nil]
    have h1 : (Except.ok (renameColumns [(oldName, newName)] j) :
        Except String DFrame) >>= applyTransformers [(newName, gs)] =
        applyList newName gs (renameColumns [(oldName, newName)] j) >>=
          pure := rfl
    rw [h1, applyList_ok newName gs _ i hi]
    rfl
  · rw [merge_eq_of_join _ _ _ _ _ _ _ _ _ j hj, dropColumns_nil]
    obtain ⟨g0, gs0, rfl⟩ : ∃ g0 gs0, gs = g0 :: gs0 := by
      cases gs with
      | nil => exact absurd rfl hgs
      | cons a l => exact ⟨a, l, rfl⟩
    have h1 : (Except.ok (renameColumns [(oldName, newName)] j) :
        Except String DFrame) >>= applyTransformers [(oldName, g0 :: gs0)] =
        applyList oldName (g0 :: gs0)
          (renameColumns [(oldName, newName)] j) >>= pure := rfl
    rw [h1, applyList_err oldName g0 gs0 _
      (colIdx_none_of_not_mem _ _ hrenOld)]
    rfl
  · rw [merge_eq_of_join _ _ _ _ _ _ _ _ _ j hj,
      dropColumns_singleton_err _ _ hrenOld]
    rfl
  · rw [merge_eq_of_join _ _ _ _ _ _ _ _ _ j hj,
      dropColumns_singleton_ok _ _ hrenNew]
    rfl

/-- Witness for C4 at the concrete witness frames, renaming `a` to `z`. -/
theorem merge_order_contract_witness :
    (∃ i, colIdx (renameColumns [("a", "z")] witnessJoined).cols "z" =
        some i ∧
      merge witnessHierarchy "k" witnessValues "k" "_x" "_y"
          [("z", [fun _ => .int 0])] [] [("a", "z")] =
        .ok ⟨(renameColumns [("a", "z")] witnessJoined).cols,
          witnessJoined.rows.map (fun r =>
            r.set i (([fun _ => .int 0] : List (Val → Val)).foldl
              (fun a g => g a) (cellAt r i)))⟩) ∧
    merge witnessHierarchy "k" witnessValues "k" "_x" "_y"
        [("a", [fun _ => .int 0])] [] [("a", "z")] = .error "KeyError" ∧
    merge witnessHierarchy "k" witnessValues "k" "_x" "_y" [] ["a"]
        [("a", "z")] = .error "KeyError" ∧
    merge witnessHierarchy "k" witnessValues "k" "_x" "_y" [] ["z"]
        [("a", "z")] =
      .ok (eraseColumn (renameColumns [("a", "z")] witnessJoined) "z") :=
  merge_order_contract witnessHierarchy witnessValues "k" "k" "_x" "_y"
    "a" "z" [fun _ => .int 0] witnessJoined (by rfl) (by decide) (by decide)
    (by decide) (by simp)

theorem transStep_getD (m : ℕ) (acc : Store × Except String Unit)
    (w : String × (Val → Val)) (i : ℕ) (hne : i ≠ m) :
    ((transStep m acc w).1).getD i dframeDefault =
      acc.1.getD i dframeDefault := by
  obtain ⟨σ0, st⟩ := acc
  cases st with
  | error e => rfl
  | ok u =>
    unfold transStep
    cases happ : applyOne w.1 w.2 (σ0.getD m dframeDefault) with
    | ok f =>
      show (σ0.set m f).getD i dframeDefault = σ0.getD i dframeDefault
      rw [List.getD_eq_getElem?_getD, List.getElem?_set_ne (Ne.symm hne),
        ← List.getD_eq_getElem?_getD]
    | error e =>
      rfl

theorem foldl_transStep_getD (writes : List (String × (Val → Val)))
    (m : ℕ) (acc : Store × Except String Unit) (i : ℕ) (hne : i ≠ m) :
    ((writes.foldl (transStep m) acc).1).getD i dframeDefault =
      acc.1.getD i dframeDefault := by
  induction writes generalizing acc with
  | nil => rfl
  | cons w ws ih =>
    rw [List.foldl_cons, ih (transStep m acc w), transStep_getD m acc w i hne]

/-- C9: no operation mutates its input tables: `mergeStore` leaves every
pre-existing store entry unchanged (its in-place writes all go through the
handle of the freshly appended merged frame, whether or not the transformer
loop raises), and the four validators/aggregators are pure reads of the
store that write nothing. -/
theorem ops_preserve_inputs (σ : Store) (hIdx vIdx : ℕ)
    (hOn vOn lsfx rsfx : String)
    (transformers : List (String × List (Val → Val)))
    (drop_cols : List String) (rename_cols : List (String × String))
    (σb : BStore) (bi : ℕ) (year : ℤ) (lbl : String) (i : ℕ)
    (hi : i < σ.length) :
    (mergeStore σ hIdx vIdx hOn vOn lsfx rsfx transformers drop_cols
        rename_cols).1.getD i dframeDefault = σ.getD i dframeDefault ∧
    (top_level_budgetStore σb bi year lbl).1 = σb ∧
    (summed_state_budgetStore σb bi year).1 = σb ∧
    (state_budgetStore σb bi year).1 = σb ∧
    (budget_gapStore σb bi).1 = σb := by
  refine ⟨?_, rfl, rfl, rfl, rfl⟩
  unfold mergeStore
  split
  · rfl
  · split
    · rfl
    · rename_i d heqd
      have hne : i ≠ σ.length := Nat.ne_of_lt hi
      have hres := foldl_transStep_getD (transformers.flatMap (fun cg =>
        cg.2.map (fun g => (cg.1, g)))) σ.length (σ ++ [d], .ok ()) i hne
      split <;>
        (rename_i heq2
         rw [heq2, List.getD_append _ _ _ _ hi] at hres
         exact hres)

/-- Witness for C9 at the concrete stores. -/
theorem ops_preserve_inputs_witness :
    0 < witnessStore.length ∧
    ((mergeStore witnessStore 0 1 "k" "k" "_x" "_y" [("a", [fun v => v])]
        [] []).1.getD 0 dframeDefault = witnessStore.getD 0 dframeDefault ∧
      (top_level_budgetStore witnessBStore 0 2020 ministryBudget).1 =
        witnessBStore ∧
      (summed_state_budgetStore witnessBStore 0 2020).1 = witnessBStore ∧
      (state_budgetStore witnessBStore 0 2020).1 = witnessBStore ∧
      (budget_gapStore witnessBStore 0).1 = witnessBStore) :=
  ⟨by decide, ops_preserve_inputs witnessStore 0 1 "k" "k" "_x" "_y"
    [("a", [fun v => v])] [] [] witnessBStore 0 2020 ministryBudget 0
    (by decide)⟩

theorem generate_csv_loop (attempt : String → Except String Unit)
    (sheetNames : List String)
    (acc : List String × List (String × String)) :
    sheetNames.foldl
      (fun acc sheet_name =>
        match attempt sheet_name with
        | .ok _ => (acc.1 ++ [sheet_name], acc.2)
        | .error e => (acc.1, acc.2 ++ [(sheet_name, e)])) acc =
    (acc.1 ++ sheetNames.filter (fun n => (attempt n).isOk),
     acc.2 ++ sheetNames.filterMap (fun n =>
       match attempt n with
       | .ok _ => none
       | .error e => some (n, e))) := by
  induction sheetNames generalizing acc with
  | nil => simp
  | cons n ns ih =>
    rw [List.foldl_cons, ih]
    cases ha : attempt n with
    | ok u =>
      simp [List.filter_cons, List.filterMap_cons, ha, Except.isOk,
        Except.toBool]
    | error e =>
      simp [List.filter_cons, List.filterMap_cons, ha, Except.isOk,
        Except.toBool]

/-- C8: the cache-regeneration loop tolerates per-sheet failures: the
written sheets are exactly those whose write succeeds and the reported
pairs carry each failing sheet's name and cause, both independent of any
other sheet's outcome; in particular every sheet is either written or
reported — a failure on one sheet never prevents the remaining sheets from
being processed. -/
theorem generate_csv_partial_failure (attempt : String → Except String Unit)
    (sheetNames : List String) :
    (generate_csv attempt sheetNames).1 =
      sheetNames.filter (fun n => (attempt n).isOk) ∧
    (generate_csv attempt sheetNames).2 =
      sheetNames.filterMap (fun n =>
        match attempt n with
        | .ok _ => none
        | .error e => some (n, e)) ∧
    ∀ n ∈ sheetNames,
      n ∈ (generate_csv attempt sheetNames).1 ∨
      ∃ e, attempt n = .error e ∧ (n, e) ∈ (generate_csv attempt sheetNames).2 := by
  have hloop := generate_csv_loop attempt sheetNames ([], [])
  unfold generate_csv
  rw [hloop]
  refine ⟨by simp, by simp, ?_⟩
  intro n hn
  cases ha : attempt n with
  | ok u =>
    left
    simp only [List.nil_append]
    exact List.mem_filter.mpr ⟨hn, by simp [ha, Except.isOk, Except.toBool]⟩
  | error e =>
    right
    refine ⟨e, rfl, ?_⟩
    simp only [List.nil_append]
    exact List.mem_filterMap.mpr ⟨n, hn, by simp [ha]⟩

/-- Witness for C10 at a concrete table. -/
theorem top_level_budget_eq_plain_difference_witness :
    organizationsWithTopLevelBudget exampleTable 2020 ministryBudget ⊆
      uniqueOrganizations exampleTable 2020 ∧
    (organizationsWithTopLevelBudget exampleTable 2020 ministryBudget).card ≤
      (uniqueOrganizations exampleTable 2020).card ∧
    top_level_budget exampleTable 2020 ministryBudget =
      top_level_budget_spec exampleTable 2020 ministryBudget :=
  top_level_budget_eq_plain_difference exampleTable 2020 ministryBudget

/-- Witness for C8 at a concrete write oracle failing on one sheet. -/
theorem generate_csv_partial_failure_witness :
    (generate_csv witnessAttempt ["s1", "bad", "s2"]).1 =
      ["s1", "bad", "s2"].filter (fun n => (witnessAttempt n).isOk) ∧
    (generate_csv witnessAttempt ["s1", "bad", "s2"]).2 =
      ["s1", "bad", "s2"].filterMap (fun n =>
        match witnessAttempt n with
        | .ok _ => none
        | .error e => some (n, e)) ∧
    ∀ n ∈ ["s1", "bad", "s2"],
      n ∈ (generate_csv witnessAttempt ["s1", "bad", "s2"]).1 ∨
      ∃ e, witnessAttempt n = .error e ∧
        (n, e) ∈ (generate_csv witnessAttempt ["s1", "bad", "s2"]).2 :=
  generate_csv_partial_failure witnessAttempt ["s1", "bad", "s2"]
